import Mathlib

/-!
# Verification of the normalization-and-consolidation pipeline of
# comparador-panales-chile

Shallow embedding of the pipeline logic found in `main.py`, `app.py` and the
scraping adapters, together with proofs about the claims of the
specification.  Python `None` is modelled with `Option`, Python machine
integers with `Int`, Python `float` arithmetic with exact rationals, and
Python `round` (banker's rounding) with `roundHalfEven` below.  SQLite rows
are modelled as Lean structures, tables as lists of rows.
-/

set_option maxRecDepth 4000

namespace Comparador

/-! ## Basic string machinery (Python `in`, `lower`, `upper`, SQLite `LOWER`) -/

/-- `esPrefijo pat s`: `pat` is a prefix of `s` (on character lists). -/
def esPrefijo : List Char → List Char → Bool
  | [], _ => true
  | _ :: _, [] => false
  | a :: as, b :: bs => a == b && esPrefijo as bs

/-- `esSubcadena pat s`: `pat` occurs as a contiguous substring of `s`,
models Python's `pat in s`. -/
def esSubcadena (pat : List Char) : List Char → Bool
  | [] => pat.isEmpty
  | c :: resto => esPrefijo pat (c :: resto) || esSubcadena pat resto

/-- Python `sub in s` on strings. -/
def contiene (s sub : String) : Bool :=
  esSubcadena sub.data s.data

/-- Python `str.lower` restricted to the alphabet appearing in this
program's data (ASCII plus the Spanish accented letters). -/
def pyLowerChar (c : Char) : Char :=
  if c == 'Á' then 'á' else if c == 'É' then 'é' else if c == 'Í' then 'í'
  else if c == 'Ó' then 'ó' else if c == 'Ú' then 'ú' else if c == 'Ñ' then 'ñ'
  else if c == 'Ü' then 'ü' else c.toLower

/-- Python `str.upper` restricted to the same alphabet. -/
def pyUpperChar (c : Char) : Char :=
  if c == 'á' then 'Á' else if c == 'é' then 'É' else if c == 'í' then 'Í'
  else if c == 'ó' then 'Ó' else if c == 'ú' then 'Ú' else if c == 'ñ' then 'Ñ'
  else if c == 'ü' then 'Ü' else c.toUpper

def pyLower (s : String) : String := ⟨s.data.map pyLowerChar⟩

def pyUpper (s : String) : String := ⟨s.data.map pyUpperChar⟩

/-- SQLite's `LOWER`, which lowercases ASCII only. -/
def sqlLower (s : String) : String := ⟨s.data.map Char.toLower⟩

/-! ## Python `round` on floats: round half to even.

The program only ever rounds exact quotients of integers
(`round(precio / cantidad)`, `round(precio / cantidad * 1000)`,
`round((pl - p) / pl * 100)`); the float arithmetic is modelled as the exact
rational `a / b` and `round` as round-half-to-even on that fraction.
`roundDiv a b` is Python `round(a / b)` for `b > 0`. -/

def roundDiv (a b : ℤ) : ℤ :=
  let n := Int.fdiv a b
  let r2 := 2 * (a - n * b)
  if r2 < b then n
  else if b < r2 then n + 1
  else if n % 2 = 0 then n else n + 1

/-- Python truthiness of an optional integer: `None` and `0` are falsy. -/
def truthyInt : Option Int → Bool
  | none => false
  | some v => v != 0

/-! ## Category detection (`app.py`, `detectar_categoria`) -/

def FORMULAS_KEYWORDS : List String :=
  ["fórmula", "formula", "leche infantil", "leche en polvo",
   "nan ", "nido", "similac", "enfamil", "s-26", "s26",
   "alula", "nidal", "nutrilon", "blemil"]

def TOALLITAS_KEYWORDS : List String :=
  ["toalla húmeda", "toallas húmedas", "toalla humeda", "toallas humedas",
   "toallita"]

def PANALES_AGUA_KEYWORDS : List String :=
  ["swimmer", "agua", "acuatic", "piscina", "splasher"]

/-- `detectar_categoria` from `app.py` (lines 181–195): scan the lowercased
name against the keyword lists, formulas first, then wipes, then water
diapers, defaulting to `"Pañales"`.  An absent name is modelled by `""`
(Python `if not nombre`). -/
def detectarCategoria (nombre : String) : String :=
  if nombre == "" then "Pañales"
  else
    let nombreLower := pyLower nombre
    if FORMULAS_KEYWORDS.any (fun kw => contiene nombreLower kw) then
      "Fórmulas Infantiles"
    else if TOALLITAS_KEYWORDS.any (fun kw => contiene nombreLower kw) then
      "Toallitas Humedas"
    else if PANALES_AGUA_KEYWORDS.any (fun kw => contiene nombreLower kw) then
      "Pañales de Agua"
    else "Pañales"

example : detectarCategoria "NAN Optipro 3 800 g" = "Fórmulas Infantiles" := by decide

example : detectarCategoria "Toallitas Húmedas Pampers" = "Toallitas Humedas" := by decide

example : detectarCategoria "Pañal de agua Huggies" = "Pañales de Agua" := by decide

example : detectarCategoria "Pampers Premium Care" = "Pañales" := by decide

example : roundDiv (8990 * 1000) 800 = 11238 := by decide

example : roundDiv 16990 68 = 250 := by decide

example : roundDiv 8990 800 = 11 := by decide

example : roundDiv 5 2 = 2 := by decide

example : roundDiv 7 2 = 4 := by decide

/-! ## SQLite data model (`main.py`, `inicializar_db`)

Tables are lists of rows in rowid (insertion) order; `AUTOINCREMENT` ids are
`length + 1`. -/

structure Tienda where
  id : Nat
  nombre : String
  urlBase : Option String
deriving DecidableEq

structure Producto where
  id : Nat
  nombre : String
  marca : String
  tamanoUnidades : Option Int
  url : String
  imagenUrl : Option String
deriving DecidableEq

structure Precio where
  productoId : Nat
  tiendaId : Nat
  precio : Option Int
  precioPorUnidad : Option Int
  precioLista : Option Int
  fechaScraping : String
deriving DecidableEq

structure DB where
  tiendas : List Tienda
  productos : List Producto
  precios : List Precio
deriving DecidableEq

/-- Python truthiness of an optional string: `None` and `""` are falsy. -/
def truthyStr : Option String → Bool
  | none => false
  | some s => s != ""

/-- `obtener_o_crear_tienda` (main.py 131–146). -/
def obtenerOCrearTienda (db : DB) (nombre : String) (urlBase : Option String) :
    Nat × DB :=
  match db.tiendas.find? (fun t => t.nombre == nombre) with
  | some t => (t.id, db)
  | none =>
      let nuevoId := db.tiendas.length + 1
      (nuevoId, { db with tiendas := db.tiendas ++ [⟨nuevoId, nombre, urlBase⟩] })

/-- `obtener_o_crear_producto` (main.py 149–180): look the product up by URL;
if found, back-fill `tamano_unidades` when the incoming value is truthy and
the stored one is falsy, overwrite `imagen_url` when the incoming value is
truthy, and return the existing id; otherwise insert the incoming values
verbatim. -/
def obtenerOCrearProducto (db : DB) (nombre marca : String)
    (tamanoUnidades : Option Int) (url : String) (imagenUrl : Option String) :
    Nat × DB :=
  match db.productos.find? (fun p => p.url == url) with
  | some p =>
      let productos1 :=
        if truthyInt tamanoUnidades && !truthyInt p.tamanoUnidades then
          db.productos.map (fun q =>
            if q.id == p.id then { q with tamanoUnidades := tamanoUnidades } else q)
        else db.productos
      let productos2 :=
        if truthyStr imagenUrl then
          productos1.map (fun q =>
            if q.id == p.id then { q with imagenUrl := imagenUrl } else q)
        else productos1
      (p.id, { db with productos := productos2 })
  | none =>
      let nuevoId := db.productos.length + 1
      (nuevoId,
       { db with productos :=
          db.productos ++ [⟨nuevoId, nombre, marca, tamanoUnidades, url, imagenUrl⟩] })

/-- The Product Record interface consumed from the scraping adapters
(fields of the per-store CSVs as read back by `leer_csv`). -/
structure Registro where
  nombre : String
  precio : Option Int
  marca : String
  cantidadUnidades : Option Int
  precioPorUnidad : Option Int
  imagen : String
  precioLista : Option Int
  url : String
  tienda : String
  fechaExtraccion : String
deriving DecidableEq

/-- `urls_tiendas` (main.py 198–207). -/
def urlsTiendas : List (String × String) :=
  [("Liquimax", "https://www.liquimax.cl"),
   ("Distribuidora Pepito", "https://www.distribuidorapepito.cl"),
   ("La Pañalera", "https://www.lapanalera.cl"),
   ("Pañales Tin Tin", "https://www.panalestintin.cl"),
   ("Santa Isabel", "https://www.santaisabel.cl"),
   ("Jumbo", "https://www.jumbo.cl"),
   ("Farmacias Ahumada", "https://www.farmaciasahumada.cl"),
   ("Cruz Verde", "https://www.cruzverde.cl")]

/-- The unit-price computation of `guardar_en_db` (main.py 225–231):
`round(precio / cantidad)` whenever `precio` and `cantidad` are truthy and
`cantidad > 0`, otherwise the adapter-supplied `precio_por_unidad`. -/
def precioPorUnidadGuardado (precio cantidad ppuAdaptador : Option Int) : Option Int :=
  if truthyInt precio && truthyInt cantidad && decide (0 < cantidad.getD 0) then
    some (roundDiv (precio.getD 0) (cantidad.getD 0))
  else ppuAdaptador

/-- The infant-formula branch of the adapters' unit-price computation
(`ahumada_scraper.py` 324–327, `santaisabel_scraper.py` 328–329,
`salcobrand_scraper.py` 450–451): `round(precio / cantidad * 1000)`, the
price per kilogram of a product whose quantity is stored in grams. -/
def ppuFormulaAdaptador (precio cantidad : ℤ) : ℤ :=
  roundDiv (precio * 1000) cantidad

/-- The body of the loop of `guardar_en_db` (main.py 209–241) for one
record: find or create the store and the product, then append one price
observation. -/
def guardarProducto (db : DB) (fecha : String) (r : Registro) : DB :=
  let resT := obtenerOCrearTienda db r.tienda (urlsTiendas.lookup r.tienda)
  let resP := obtenerOCrearProducto resT.2 r.nombre r.marca r.cantidadUnidades
      r.url (some r.imagen)
  { resP.2 with precios := resP.2.precios ++
      [⟨resP.1, resT.1, r.precio,
        precioPorUnidadGuardado r.precio r.cantidadUnidades r.precioPorUnidad,
        r.precioLista, fecha⟩] }

/-- `guardar_en_db` (main.py 183–243). -/
def guardarEnDb (db : DB) (productos : List Registro) (fecha : String) : DB :=
  productos.foldl (fun d r => guardarProducto d fecha r) db

def dbVacia : DB := ⟨[], [], []⟩

/-! ## Lemmas about the persistence layer -/

theorem obtenerOCrearTienda_precios (db : DB) (n : String) (u : Option String) :
    ((obtenerOCrearTienda db n u).2).precios = db.precios := by
  unfold obtenerOCrearTienda
  cases db.tiendas.find? (fun t => t.nombre == n) <;> rfl

theorem obtenerOCrearProducto_precios (db : DB) (n m : String) (t : Option Int)
    (u : String) (img : Option String) :
    ((obtenerOCrearProducto db n m t u img).2).precios = db.precios := by
  unfold obtenerOCrearProducto
  cases db.productos.find? (fun p => p.url == u) <;> rfl

theorem guardarProducto_precios_ppu (db : DB) (fecha : String) (r : Registro) :
    ((guardarProducto db fecha r).precios).map (fun fila => fila.precioPorUnidad)
      = db.precios.map (fun fila => fila.precioPorUnidad)
        ++ [precioPorUnidadGuardado r.precio r.cantidadUnidades r.precioPorUnidad] := by
  unfold guardarProducto
  simp [obtenerOCrearProducto_precios, obtenerOCrearTienda_precios]

/-- An infant-formula record as the formula-aware adapters emit it:
quantity in grams, adapter unit price per kilogram. -/
def registroFormulaEjemplo : Registro :=
  { nombre := "NAN Optipro 3 800 g", precio := some 8990, marca := "Nan",
    cantidadUnidades := some 800, precioPorUnidad := some 11238,
    imagen := "", precioLista := none, url := "https://tienda.cl/nan-800g",
    tienda := "Farmacias Ahumada", fechaExtraccion := "2025-01-01 00:00:00" }

/-- A diaper record whose adapter supplied its own per-unit figure. -/
def registroPanalEjemplo : Registro :=
  { nombre := "Pañales Pampers Premium Care Talla G x 4 un", precio := some 1000,
    marca := "Pampers", cantidadUnidades := some 4, precioPorUnidad := some 999,
    imagen := "", precioLista := none, url := "https://tienda.cl/pampers-4",
    tienda := "Liquimax", fechaExtraccion := "2025-01-01 00:00:00" }

/-- C1: for an InfantFormula record with `precio = 8990` and
`cantidad_unidades = 800` (grams), the adapters compute the per-kilogram
unit price `round(8990/800*1000) = 11238`, as the spec states, but
`guardar_en_db` unconditionally recomputes `round(precio/cantidad)` whenever
both fields are present, so the pipeline persists `round(8990/800) = 11`
(a price per gram), not `11238`: the code contradicts the adapters' own
formula branch and the specification. -/
theorem c1_formula_ppu_persistido_bug :
    detectarCategoria "NAN Optipro 3 800 g" = "Fórmulas Infantiles" ∧
    ppuFormulaAdaptador 8990 800 = 11238 ∧
    ((guardarEnDb dbVacia [registroFormulaEjemplo] "2025-01-01 00:00:00").precios.map
        (fun fila => fila.precioPorUnidad)) = [some 11] ∧
    some (11 : ℤ) ≠ some (11238 : ℤ) := by
  decide

/-- C3 counterexample: a record with non-null price 1000, unit count 4 > 0
and an adapter-supplied per-unit figure 999; the claim says the pipeline
stores the adapter-supplied 999, but it stores the computed
`round(1000/4) = 250` instead. -/
theorem c3_counterexample_adaptador_ignorado :
    registroPanalEjemplo.precio = some 1000 ∧
    registroPanalEjemplo.cantidadUnidades = some 4 ∧
    registroPanalEjemplo.precioPorUnidad = some 999 ∧
    ((guardarEnDb dbVacia [registroPanalEjemplo] "2025-01-01 00:00:00").precios.map
        (fun fila => fila.precioPorUnidad)) = [some 250] ∧
    some (250 : ℤ) ≠ some (999 : ℤ) := by
  decide

/-- C3 (amended): `guardar_en_db` appends exactly one price row per input
record, in order, and the stored unit price is the computed
`round(precio/cantidad)` whenever `precio` is non-null and non-zero and
`cantidad` is non-null and positive; the adapter-supplied
`precio_por_unidad` is stored only as a fallback when that computation is
not possible. -/
theorem c3_ppu_calculado_preferido (db : DB) (rs : List Registro) (fecha : String) :
    ((guardarEnDb db rs fecha).precios).map (fun fila => fila.precioPorUnidad)
      = db.precios.map (fun fila => fila.precioPorUnidad)
        ++ rs.map (fun r =>
            if truthyInt r.precio && truthyInt r.cantidadUnidades
                && decide (0 < r.cantidadUnidades.getD 0) then
              some (roundDiv (r.precio.getD 0) (r.cantidadUnidades.getD 0))
            else r.precioPorUnidad) := by
  induction rs generalizing db with
  | nil => simp [guardarEnDb]
  | cons r rs ih =>
      have h1 : guardarEnDb db (r :: rs) fecha
          = guardarEnDb (guardarProducto db fecha r) rs fecha := rfl
      rw [h1, ih, guardarProducto_precios_ppu]
      simp [precioPorUnidadGuardado]

/-- C2 counterexample: the incoming unit count `0` is non-null, the stored
one is null, yet the back-fill does not happen (Python truthiness treats `0`
like `None`): the stored unit count stays null instead of becoming `0`. -/
theorem c2_counterexample_cero_no_actualiza :
    some (0 : ℤ) ≠ (none : Option ℤ) ∧
    (((obtenerOCrearProducto ⟨[], [⟨1, "Pañal X", "MarcaX", none, "u", none⟩], []⟩
        "Pañal X" "MarcaX" (some 0) "u" none).2).productos.map
      (fun q => q.tamanoUnidades)) = [none] := by
  decide

/-- C2 (amended): resolving an observation for an existing URL back-fills
the stored unit count from null to an incoming non-null AND non-zero value;
once the stored unit count is non-null no observation ever sets it back to
null; and name and brand are never overwritten after creation. -/
theorem c2_backfill_monotono (db : DB) (nombre marca : String)
    (tam : Option Int) (url : String) (img : Option String) :
    (∀ p, db.productos.find? (fun q => q.url == url) = some p →
        p.tamanoUnidades = none → ∀ v : Int, tam = some v → v ≠ 0 →
        ∀ q ∈ ((obtenerOCrearProducto db nombre marca tam url img).2).productos,
          q.id = p.id → q.tamanoUnidades = tam) ∧
    (∀ i : Nat, ∀ q0 : Producto, db.productos[i]? = some q0 →
        q0.tamanoUnidades ≠ none →
        ∃ q1, ((obtenerOCrearProducto db nombre marca tam url img).2).productos[i]?
            = some q1 ∧ q1.tamanoUnidades ≠ none) ∧
    (∀ i : Nat, ∀ q0 : Producto, db.productos[i]? = some q0 →
        ∃ q1, ((obtenerOCrearProducto db nombre marca tam url img).2).productos[i]?
            = some q1 ∧ q1.nombre = q0.nombre ∧ q1.marca = q0.marca) := by
  unfold obtenerOCrearProducto
  cases hfind : db.productos.find? (fun p => p.url == url) with
  | none =>
      refine ⟨?_, ?_, ?_⟩
      · intro p hp
        exact absurd hp (by simp)
      · intro i q0 hq0 hne
        have hlt : i < db.productos.length := by
          rcases List.getElem?_eq_some_iff.mp hq0 with ⟨h, _⟩
          exact h
        exact ⟨q0, by dsimp only; rw [List.getElem?_append_left hlt]; exact hq0, hne⟩
      · intro i q0 hq0
        have hlt : i < db.productos.length := by
          rcases List.getElem?_eq_some_iff.mp hq0 with ⟨h, _⟩
          exact h
        exact ⟨q0, by dsimp only; rw [List.getElem?_append_left hlt]; exact hq0, rfl, rfl⟩
  | some p =>
      refine ⟨?_, ?_, ?_⟩
      · intro p' hp' hnone v htam hv q hq hid
        obtain rfl : p = p' := by injection hp'
        subst htam
        dsimp only at hq
        have hcond : (truthyInt (some v) && !truthyInt p.tamanoUnidades) = true := by
          simp [truthyInt, hnone, hv]
        rw [if_pos hcond] at hq
        by_cases himg : truthyStr img = true
        · rw [if_pos himg] at hq
          simp only [List.mem_map] at hq
          obtain ⟨a, ⟨b, hb, rfl⟩, rfl⟩ := hq
          by_cases hbid : b.id = p.id
          · simp [hbid]
          · exfalso
            simp only [show (b.id == p.id) = false by simpa using hbid,
              Bool.false_eq_true, if_false] at hid
            exact hbid hid
        · rw [if_neg himg] at hq
          simp only [List.mem_map] at hq
          obtain ⟨b, hb, rfl⟩ := hq
          by_cases hbid : b.id = p.id
          · simp [hbid]
          · exfalso
            simp only [show (b.id == p.id) = false by simpa using hbid,
              Bool.false_eq_true, if_false] at hid
            exact hbid hid
      · intro i q0 hq0 hne
        dsimp only
        have htamne : (truthyInt tam && !truthyInt p.tamanoUnidades) = true →
            tam ≠ none := by
          intro hc hn
          rw [hn] at hc
          simp [truthyInt] at hc
        by_cases hc : (truthyInt tam && !truthyInt p.tamanoUnidades) = true
        · rw [if_pos hc]
          by_cases himg : truthyStr img = true
          · rw [if_pos himg]
            simp only [List.getElem?_map, hq0, Option.map_some]
            refine ⟨_, rfl, ?_⟩
            by_cases hbid : q0.id = p.id <;> simp [hbid, hne, htamne hc]
          · rw [if_neg himg]
            simp only [List.getElem?_map, hq0, Option.map_some]
            refine ⟨_, rfl, ?_⟩
            by_cases hbid : q0.id = p.id <;> simp [hbid, hne, htamne hc]
        · rw [if_neg hc]
          by_cases himg : truthyStr img = true
          · rw [if_pos himg]
            simp only [List.getElem?_map, hq0, Option.map_some]
            refine ⟨_, rfl, ?_⟩
            by_cases hbid : q0.id = p.id <;> simp [hbid, hne]
          · rw [if_neg himg]
            exact ⟨q0, hq0, hne⟩
      · intro i q0 hq0
        dsimp only
        by_cases hc : (truthyInt tam && !truthyInt p.tamanoUnidades) = true
        · rw [if_pos hc]
          by_cases himg : truthyStr img = true
          · rw [if_pos himg]
            simp only [List.getElem?_map, hq0, Option.map_some]
            refine ⟨_, rfl, ?_, ?_⟩ <;>
              by_cases hbid : q0.id = p.id <;> simp [hbid]
          · rw [if_neg himg]
            simp only [List.getElem?_map, hq0, Option.map_some]
            refine ⟨_, rfl, ?_, ?_⟩ <;>
              by_cases hbid : q0.id = p.id <;> simp [hbid]
        · rw [if_neg hc]
          by_cases himg : truthyStr img = true
          · rw [if_pos himg]
            simp only [List.getElem?_map, hq0, Option.map_some]
            refine ⟨_, rfl, ?_, ?_⟩ <;>
              by_cases hbid : q0.id = p.id <;> simp [hbid]
          · rw [if_neg himg]
            exact ⟨q0, hq0, rfl, rfl⟩

theorem c2_backfill_monotono_witness :
    (⟨1, "Pañal X", "MarcaX", some 70, "u", none⟩ : Producto).tamanoUnidades
      = some 70 :=
  (c2_backfill_monotono ⟨[], [⟨1, "Pañal X", "MarcaX", none, "u", none⟩], []⟩
      "Pañal X" "MarcaX" (some 70) "u" none).1
    ⟨1, "Pañal X", "MarcaX", none, "u", none⟩ (by decide) rfl 70 rfl (by decide)
    ⟨1, "Pañal X", "MarcaX", some 70, "u", none⟩ (by decide) rfl

/-- C7: category classification scans the product name case-insensitively
against keyword sets in fixed priority order — infant-formula keywords
first, then wet-wipes keywords, then water-diaper keywords — and when no
keyword matches (including for an empty or missing name) it returns the
default Diaper category `"Pañales"`; in particular a formula name that also
contains wipes or water keywords is still classified as formula. -/
theorem c7_categoria_prioridad :
    (∀ nombre : String,
        FORMULAS_KEYWORDS.any (fun kw => contiene (pyLower nombre) kw) = true →
        detectarCategoria nombre = "Fórmulas Infantiles") ∧
    (∀ nombre : String,
        FORMULAS_KEYWORDS.any (fun kw => contiene (pyLower nombre) kw) = false →
        TOALLITAS_KEYWORDS.any (fun kw => contiene (pyLower nombre) kw) = true →
        detectarCategoria nombre = "Toallitas Humedas") ∧
    (∀ nombre : String,
        FORMULAS_KEYWORDS.any (fun kw => contiene (pyLower nombre) kw) = false →
        TOALLITAS_KEYWORDS.any (fun kw => contiene (pyLower nombre) kw) = false →
        PANALES_AGUA_KEYWORDS.any (fun kw => contiene (pyLower nombre) kw) = true →
        detectarCategoria nombre = "Pañales de Agua") ∧
    (∀ nombre : String,
        FORMULAS_KEYWORDS.any (fun kw => contiene (pyLower nombre) kw) = false →
        TOALLITAS_KEYWORDS.any (fun kw => contiene (pyLower nombre) kw) = false →
        PANALES_AGUA_KEYWORDS.any (fun kw => contiene (pyLower nombre) kw) = false →
        detectarCategoria nombre = "Pañales") ∧
    detectarCategoria "" = "Pañales" := by
  refine ⟨?_, ?_, ?_, ?_, rfl⟩
  · intro nombre h1
    by_cases h0 : (nombre == "") = true
    · have he : nombre = "" := by simpa using h0
      subst he
      exact absurd h1 (by decide)
    · have h0f : (nombre == "") = false := by simpa using h0
      simp only [detectarCategoria, h0f, Bool.false_eq_true, if_false, h1,
        if_true]
  · intro nombre h1 h2
    by_cases h0 : (nombre == "") = true
    · have he : nombre = "" := by simpa using h0
      subst he
      exact absurd h2 (by decide)
    · have h0f : (nombre == "") = false := by simpa using h0
      simp only [detectarCategoria, h0f, Bool.false_eq_true, if_false, h1, h2,
        if_true]
  · intro nombre h1 h2 h3
    by_cases h0 : (nombre == "") = true
    · have he : nombre = "" := by simpa using h0
      subst he
      exact absurd h3 (by decide)
    · have h0f : (nombre == "") = false := by simpa using h0
      simp only [detectarCategoria, h0f, Bool.false_eq_true, if_false, h1, h2,
        h3, if_true]
  · intro nombre h1 h2 h3
    by_cases h0 : (nombre == "") = true
    · have he : nombre = "" := by simpa using h0
      subst he
      rfl
    · have h0f : (nombre == "") = false := by simpa using h0
      simp only [detectarCategoria, h0f, Bool.false_eq_true, if_false, h1, h2,
        h3]

theorem c7_categoria_prioridad_witness :
    detectarCategoria "NAN Optipro toallita de agua" = "Fórmulas Infantiles" ∧
    detectarCategoria "Toallitas humedas de agua Huggies" = "Toallitas Humedas" ∧
    detectarCategoria "Pañal de agua Splashers" = "Pañales de Agua" ∧
    detectarCategoria "Pampers Premium Care Talla G" = "Pañales" :=
  ⟨c7_categoria_prioridad.1 _ (by decide),
   c7_categoria_prioridad.2.1 _ (by decide) (by decide),
   c7_categoria_prioridad.2.2.1 _ (by decide) (by decide) (by decide),
   c7_categoria_prioridad.2.2.2.1 _ (by decide) (by decide) (by decide)⟩

/-! ## Slugs for friendly URLs (`app.py`, `slugify` / `deslugify_talla`) -/

/-- Python whitespace for `str.strip` (restricted to the characters that can
occur in this program's data). -/
def esEspacioPy (c : Char) : Bool :=
  c == ' ' || c == '\t' || c == '\n' || c == '\r'

/-- Python `str.strip()`. -/
def pyStrip (s : List Char) : List Char :=
  ((s.dropWhile esEspacioPy).reverse.dropWhile esEspacioPy).reverse

/-- `unicodedata.normalize("NFKD", ·)` followed by dropping combining marks,
as a character map on the alphabet used by this program: each precomposed
accented letter decomposes into its base letter plus a combining mark, and
removing the mark leaves the base letter. -/
def quitaAcentoChar (c : Char) : Char :=
  if c == 'á' then 'a' else if c == 'é' then 'e' else if c == 'í' then 'i'
  else if c == 'ó' then 'o' else if c == 'ú' then 'u' else if c == 'ü' then 'u'
  else if c == 'ñ' then 'n'
  else if c == 'Á' then 'A' else if c == 'É' then 'E' else if c == 'Í' then 'I'
  else if c == 'Ó' then 'O' else if c == 'Ú' then 'U' else if c == 'Ü' then 'U'
  else if c == 'Ñ' then 'N'
  else c

/-- Python `str.replace pat rep`: scan left to right, replacing each
non-overlapping occurrence.  The fuel argument (initially the length of the
string) makes the recursion structural; it never runs out for the non-empty
patterns this program uses. -/
def pyReplaceAux (pat rep : List Char) : Nat → List Char → List Char
  | 0, s => s
  | _ + 1, [] => []
  | fuel + 1, c :: resto =>
      if esPrefijo pat (c :: resto) then
        rep ++ pyReplaceAux pat rep fuel ((c :: resto).drop pat.length)
      else
        c :: pyReplaceAux pat rep fuel resto

def pyReplace (pat rep s : List Char) : List Char :=
  pyReplaceAux pat rep s.length s

def esAlnumMin (c : Char) : Bool :=
  ('a' ≤ c && c ≤ 'z') || ('0' ≤ c && c ≤ '9')

/-- `re.sub(r"[^a-z0-9]+", "-", ·)`: each maximal run of characters outside
`[a-z0-9]` becomes a single `'-'`.  The Boolean records whether we are inside
such a run. -/
def colapsaGo : Bool → List Char → List Char
  | _, [] => []
  | enRacha, c :: resto =>
      if esAlnumMin c then c :: colapsaGo false resto
      else if enRacha then colapsaGo true resto
      else '-' :: colapsaGo true resto

def colapsaNoAlnum (s : List Char) : List Char := colapsaGo false s

/-- Python `str.strip("-")`. -/
def stripGuiones (s : List Char) : List Char :=
  ((s.dropWhile (fun c => c == '-')).reverse.dropWhile (fun c => c == '-')).reverse

/-- `slugify` (app.py 111–123). -/
def slugify (texto : String) : String :=
  if texto == "" then ""
  else
    let t1 := pyStrip texto.data
    let t2 := t1.map quitaAcentoChar
    let t3 := t2.map pyLowerChar
    let t4 := pyReplace "+".data "-plus".data t3
    let t5 := colapsaNoAlnum t4
    ⟨stripGuiones t5⟩

/-- `ORDEN_TALLAS` (app.py 61–64). -/
def ORDEN_TALLAS : List String :=
  ["RN", "RN+", "P", "S-M", "M", "G", "P-M",
   "XG", "G-XG", "L", "XXG", "L-XL", "XL", "XXXG"]

/-- `deslugify_talla` (app.py 126–137). -/
def deslugifyTalla (slug : String) : Option String :=
  if slug == "" then none
  else if !esPrefijo "talla-".data slug.data then none
  else
    let parte := slug.data.drop 6
    let parte2 := pyReplace "-plus".data "+".data parte
    let talla : String := ⟨parte2.map pyUpperChar⟩
    if talla ∈ ORDEN_TALLAS then some talla else none

example : slugify "RN+" = "rn-plus" := by decide
example : slugify "Pañales" = "panales" := by decide
example : deslugifyTalla "talla-rn-plus" = some "RN+" := by decide
example : deslugifyTalla "talla-g" = some "G" := by decide
example : deslugifyTalla "talla-zz" = none := by decide

/-- C10: size-tag slugs round-trip — for every tag `t` of `ORDEN_TALLAS`,
`deslugify_talla ("talla-" ++ slugify t) = some t` (in particular `"RN+"`
slugifies to `"rn-plus"` and is recovered exactly); `deslugify_talla`
returns `none` for any slug not starting with `"talla-"`, and only ever
returns members of the vocabulary (so a slug whose decoded value is outside
the vocabulary yields `none`). -/
theorem c10_slug_roundtrip :
    (∀ t ∈ ORDEN_TALLAS, deslugifyTalla ("talla-" ++ slugify t) = some t) ∧
    (∀ slug : String, esPrefijo "talla-".data slug.data = false →
        deslugifyTalla slug = none) ∧
    (∀ slug t, deslugifyTalla slug = some t → t ∈ ORDEN_TALLAS) := by
  refine ⟨by decide, ?_, ?_⟩
  · intro slug h
    unfold deslugifyTalla
    by_cases h0 : (slug == "") = true
    · rw [if_pos h0]
    · rw [if_neg h0, h]
      simp
  · intro slug t h
    unfold deslugifyTalla at h
    dsimp only at h
    split at h
    · exact absurd h (by simp)
    · split at h
      · exact absurd h (by simp)
      · split at h
        · rename_i hmem
          obtain rfl : _ = t := Option.some.inj h
          exact hmem
        · exact absurd h (by simp)

theorem c10_slug_roundtrip_witness :
    deslugifyTalla ("talla-" ++ slugify "RN+") = some "RN+" ∧
    deslugifyTalla "rn-plus" = none :=
  ⟨c10_slug_roundtrip.1 "RN+" (by decide),
   c10_slug_roundtrip.2.1 "rn-plus" (by decide)⟩

/-! ## Size-tag detection (`app.py`, `detectar_talla`)

The four `re.search` patterns of `detectar_talla` are alternations of
literal candidates after a literal prefix and a whitespace run, with an
optional trailing word-boundary `\b`.  They are embedded as leftmost
scanners that try candidates in the regex's alternation (and greediness)
order at each start position. -/

/-- Accented letters of the program's alphabet (word characters for
Python's unicode `\b`). -/
def esAcentuada (c : Char) : Bool :=
  c == 'á' || c == 'é' || c == 'í' || c == 'ó' || c == 'ú' || c == 'ü' ||
  c == 'ñ' || c == 'Á' || c == 'É' || c == 'Í' || c == 'Ó' || c == 'Ú' ||
  c == 'Ü' || c == 'Ñ'

/-- Python `\w`: ASCII alphanumerics, `_`, and (for this program's
alphabet) the accented letters. -/
def esCaracterPalabra (c : Char) : Bool :=
  c.isAlphanum || c == '_' || esAcentuada c

/-- Word boundary `\b` immediately after matching the literal `cand` at the
head of `s`: the boundary holds iff exactly one of (last character of the
match, next character of the input) is a word character; past the end of
the input counts as a non-word character. -/
def limiteTrasPalabra (cand s : List Char) : Bool :=
  let izq := esCaracterPalabra (cand.getLastD ' ')
  let der := match s.drop cand.length with
    | [] => false
    | d :: _ => esCaracterPalabra d
  izq != der

/-- Try the candidate literals in alternation order at the start of `s`;
`reqB` demands a trailing word boundary.  Returns the captured literal. -/
def intentaCandidatos (cands : List (List Char)) (reqB : Bool) (s : List Char) :
    Option (List Char) :=
  cands.findSome? fun cand =>
    if esPrefijo cand s && (!reqB || limiteTrasPalabra cand s) then some cand
    else none

/-- `\s+` with maximal munch: require at least one whitespace character and
consume the whole run (all candidates start with non-space characters, so
regex backtracking into a shorter run can never succeed). -/
def trasEspacios : List Char → Option (List Char)
  | [] => none
  | c :: resto =>
      if esEspacioPy c then some (resto.dropWhile esEspacioPy) else none

/-- Match `PREFIJO\s+(alternation)` at the start of `s`. -/
def matchPatronEn (prefijo : List Char) (cands : List (List Char)) (reqB : Bool)
    (s : List Char) : Option (List Char) :=
  if esPrefijo prefijo s then
    match trasEspacios (s.drop prefijo.length) with
    | some resto => intentaCandidatos cands reqB resto
    | none => none
  else none

/-- `re.search` for `(?:P1|P2|…)\s+(alternation)`: scan start positions
left to right (the literal prefixes are pairwise prefix-free, so at most
one can match at a given position). -/
def buscaPatron (prefijos : List (List Char)) (cands : List (List Char))
    (reqB : Bool) : List Char → Option (List Char)
  | [] => none
  | c :: resto =>
      match prefijos.findSome?
          (fun pre => matchPatronEn pre cands reqB (c :: resto)) with
      | some r => some r
      | none => buscaPatron prefijos cands reqB resto

/-- `.*?(alternation)\b`: lazy scan — try the candidates at each offset,
consuming one arbitrary non-newline character (`.`) on failure. -/
def buscaCandidatosLazy (cands : List (List Char)) : List Char → Option (List Char)
  | [] => none
  | c :: resto =>
      match intentaCandidatos cands true (c :: resto) with
      | some r => some r
      | none => if c == '\n' then none else buscaCandidatosLazy cands resto

/-- Alternation candidates of `ADULTO\s+.*?(M|G|L|XG|XL)\b`. -/
def CANDS_ADULTO : List (List Char) :=
  ["M".data, "G".data, "L".data, "XG".data, "XL".data]

/-- Match `ADULTO\s+.*?(M|G|L|XG|XL)\b` at the start of `s`. -/
def matchAdultoEn (s : List Char) : Option (List Char) :=
  if esPrefijo "ADULTO".data s then
    match trasEspacios (s.drop 6) with
    | some resto => buscaCandidatosLazy CANDS_ADULTO resto
    | none => none
  else none

/-- `re.search(r"ADULTO\s+.*?(M|G|L|XG|XL)\b", ·)`. -/
def buscaAdulto : List Char → Option (List Char)
  | [] => none
  | c :: resto =>
      match matchAdultoEn (c :: resto) with
      | some r => some r
      | none => buscaAdulto resto

/-- `.replace("/", "-")` on the captured group. -/
def reemplazaSep (s : List Char) : List Char :=
  s.map fun c => if c == '/' then '-' else c

/-- Alternation `(RN\+?|S<sep>?M|P|M|G|XG|XXG|XXXG|L<sep>?XL)` of the
`TALLA` pattern, where `<sep>` is the character class of `/` and `-`;
candidates in alternation and greediness order (`\+?` and `<sep>?` try the
longer form first). -/
def CANDS_TALLA : List (List Char) :=
  ["RN+".data, "RN".data, "S/M".data, "S-M".data, "SM".data, "P".data,
   "M".data, "G".data, "XG".data, "XXG".data, "XXXG".data,
   "L/XL".data, "L-XL".data, "LXL".data]

/-- The product-line qualifiers `(?:PREMIUM|COMFORT|CARE|SEC|COOL|PLUS)`. -/
def PREFIJOS_CALIF : List (List Char) :=
  ["PREMIUM".data, "COMFORT".data, "CARE".data, "SEC".data, "COOL".data,
   "PLUS".data]

/-- Alternation `(RN\+?|P|M|G|XG|XXG|XXXG)` of the qualifier pattern. -/
def CANDS_CALIF : List (List Char) :=
  ["RN+".data, "RN".data, "P".data, "M".data, "G".data, "XG".data,
   "XXG".data, "XXXG".data]

/-- Alternation `(RN|P|M|G|XG|XXG|XXXG|P<sep>M|G<sep>XG)` of the `PANTS`
pattern (`<sep>` as above, here mandatory). -/
def CANDS_PANTS : List (List Char) :=
  ["RN".data, "P".data, "M".data, "G".data, "XG".data, "XXG".data,
   "XXXG".data, "P/M".data, "P-M".data, "G/XG".data, "G-XG".data]

/-- `detectar_talla` (app.py 198–221): upper-case the name, try the four
patterns in order, normalising `/` to `-` in the first and third captures;
no match yields `none`. -/
def detectarTalla (nombre : String) : Option String :=
  if nombre == "" then none
  else
    let nombreUpper := pyUpper nombre
    match buscaPatron ["TALLA".data] CANDS_TALLA false nombreUpper.data with
    | some r => some ⟨reemplazaSep r⟩
    | none =>
    match buscaPatron PREFIJOS_CALIF CANDS_CALIF true nombreUpper.data with
    | some r => some ⟨r⟩
    | none =>
    match buscaPatron ["PANTS".data] CANDS_PANTS true nombreUpper.data with
    | some r => some ⟨reemplazaSep r⟩
    | none =>
    match buscaAdulto nombreUpper.data with
    | some r => some ⟨r⟩
    | none => none

example : detectarTalla "Pañales Pampers Talla G 40 un" = some "G" := by decide
example : detectarTalla "Pañal talla S/M x 20" = some "S-M" := by decide
example : detectarTalla "Huggies Premium RN+ 30 un" = some "RN" := by decide
example : detectarTalla "Babysec Pants XXG" = some "XXG" := by decide
example : detectarTalla "Cotidian Adulto Clasico XL 20" = some "XL" := by decide
example : detectarTalla "Toallitas humedas x 80" = none := by decide
example : detectarTalla "" = none := by decide

theorem intentaCandidatos_mem {cands : List (List Char)} {reqB : Bool}
    {s r : List Char} (h : intentaCandidatos cands reqB s = some r) :
    r ∈ cands := by
  unfold intentaCandidatos at h
  obtain ⟨cand, hmem, hc⟩ := List.exists_of_findSome?_eq_some h
  split at hc
  · obtain rfl := Option.some.inj hc
    exact hmem
  · exact absurd hc (by simp)

theorem matchPatronEn_mem {pre : List Char} {cands : List (List Char)}
    {reqB : Bool} {s r : List Char}
    (h : matchPatronEn pre cands reqB s = some r) : r ∈ cands := by
  unfold matchPatronEn at h
  split at h
  · split at h
    · exact intentaCandidatos_mem h
    · exact absurd h (by simp)
  · exact absurd h (by simp)

theorem buscaPatron_mem {prefijos cands : List (List Char)} {reqB : Bool} :
    ∀ {s r : List Char}, buscaPatron prefijos cands reqB s = some r →
      r ∈ cands := by
  intro s
  induction s with
  | nil => intro r h; exact absurd h (by simp [buscaPatron])
  | cons c resto ih =>
      intro r h
      unfold buscaPatron at h
      split at h
      · rename_i r2 hfs
        obtain rfl := Option.some.inj h
        obtain ⟨pre, _, hm⟩ := List.exists_of_findSome?_eq_some hfs
        exact matchPatronEn_mem hm
      · exact ih h

theorem buscaCandidatosLazy_mem {cands : List (List Char)} :
    ∀ {s r : List Char}, buscaCandidatosLazy cands s = some r → r ∈ cands := by
  intro s
  induction s with
  | nil => intro r h; exact absurd h (by simp [buscaCandidatosLazy])
  | cons c resto ih =>
      intro r h
      unfold buscaCandidatosLazy at h
      split at h
      · rename_i r2 hm
        obtain rfl := Option.some.inj h
        exact intentaCandidatos_mem hm
      · split at h
        · exact absurd h (by simp)
        · exact ih h

theorem buscaAdulto_mem : ∀ {s r : List Char},
    buscaAdulto s = some r → r ∈ CANDS_ADULTO := by
  intro s
  induction s with
  | nil => intro r h; exact absurd h (by simp [buscaAdulto])
  | cons c resto ih =>
      intro r h
      unfold buscaAdulto at h
      split at h
      · rename_i r2 hm
        obtain rfl := Option.some.inj h
        unfold matchAdultoEn at hm
        split at hm
        · split at hm
          · exact buscaCandidatosLazy_mem hm
          · exact absurd hm (by simp)
        · exact absurd hm (by simp)
      · exact ih h

/-- Every size tag `detectar_talla` returns is a capture of one of the four
patterns (after `/`→`-` normalisation for the first and third). -/
theorem detectarTalla_casos (nombre t : String)
    (h : detectarTalla nombre = some t) :
    (∃ r ∈ CANDS_TALLA, t = ⟨reemplazaSep r⟩) ∨
    (∃ r ∈ CANDS_CALIF, t = ⟨r⟩) ∨
    (∃ r ∈ CANDS_PANTS, t = ⟨reemplazaSep r⟩) ∨
    (∃ r ∈ CANDS_ADULTO, t = ⟨r⟩) := by
  unfold detectarTalla at h
  split at h
  · exact absurd h (by simp)
  · dsimp only at h
    split at h
    · rename_i r h1
      exact Or.inl ⟨r, buscaPatron_mem h1, (Option.some.inj h).symm⟩
    · split at h
      · rename_i r h2
        exact Or.inr (Or.inl ⟨r, buscaPatron_mem h2, (Option.some.inj h).symm⟩)
      · split at h
        · rename_i r h3
          exact Or.inr (Or.inr (Or.inl
            ⟨r, buscaPatron_mem h3, (Option.some.inj h).symm⟩))
        · split at h
          · rename_i r h4
            exact Or.inr (Or.inr (Or.inr
              ⟨r, buscaAdulto_mem h4, (Option.some.inj h).symm⟩))
          · exact absurd h (by simp)

/-- C8 counterexample: the `S<sep>?M` alternative of the `TALLA` pattern
matches with the separator absent, so `detectar_talla "TALLA SM"` returns
`"SM"`, which is not a token of the controlled vocabulary `ORDEN_TALLAS`. -/
theorem c8_counterexample_sm_fuera_vocabulario :
    detectarTalla "TALLA SM" = some "SM" ∧ "SM" ∉ ORDEN_TALLAS := by
  decide

/-- C8 (amended): size-tag detection returns either `none` or a token of
`ORDEN_TALLAS ∪ {"SM", "LXL"}` — the separator-less captures `"SM"` and
`"LXL"` of the `S<sep>?M` / `L<sep>?XL` alternatives fall outside the
controlled vocabulary; a returned tag never contains `/` (separators are
normalised to `-`); and when no pattern matches the result is `none`
(size unknown), never a guessed size. -/
theorem c8_talla_vocabulario :
    (∀ nombre t, detectarTalla nombre = some t →
        t ∈ ORDEN_TALLAS ++ ["SM", "LXL"]) ∧
    (∀ nombre t, detectarTalla nombre = some t →
        t.data.all (fun c => !(c == '/')) = true) ∧
    (∀ nombre : String,
        buscaPatron ["TALLA".data] CANDS_TALLA false (pyUpper nombre).data = none →
        buscaPatron PREFIJOS_CALIF CANDS_CALIF true (pyUpper nombre).data = none →
        buscaPatron ["PANTS".data] CANDS_PANTS true (pyUpper nombre).data = none →
        buscaAdulto (pyUpper nombre).data = none →
        detectarTalla nombre = none) := by
  refine ⟨?_, ?_, ?_⟩
  · intro nombre t h
    rcases detectarTalla_casos nombre t h with
      ⟨r, hr, rfl⟩ | ⟨r, hr, rfl⟩ | ⟨r, hr, rfl⟩ | ⟨r, hr, rfl⟩
    · exact (show ∀ r ∈ CANDS_TALLA,
        (⟨reemplazaSep r⟩ : String) ∈ ORDEN_TALLAS ++ ["SM", "LXL"] by decide) r hr
    · exact (show ∀ r ∈ CANDS_CALIF,
        (⟨r⟩ : String) ∈ ORDEN_TALLAS ++ ["SM", "LXL"] by decide) r hr
    · exact (show ∀ r ∈ CANDS_PANTS,
        (⟨reemplazaSep r⟩ : String) ∈ ORDEN_TALLAS ++ ["SM", "LXL"] by decide) r hr
    · exact (show ∀ r ∈ CANDS_ADULTO,
        (⟨r⟩ : String) ∈ ORDEN_TALLAS ++ ["SM", "LXL"] by decide) r hr
  · intro nombre t h
    rcases detectarTalla_casos nombre t h with
      ⟨r, hr, rfl⟩ | ⟨r, hr, rfl⟩ | ⟨r, hr, rfl⟩ | ⟨r, hr, rfl⟩
    · exact (show ∀ r ∈ CANDS_TALLA,
        (String.data ⟨reemplazaSep r⟩).all (fun c => !(c == '/')) = true by decide) r hr
    · exact (show ∀ r ∈ CANDS_CALIF,
        (String.data ⟨r⟩).all (fun c => !(c == '/')) = true by decide) r hr
    · exact (show ∀ r ∈ CANDS_PANTS,
        (String.data ⟨reemplazaSep r⟩).all (fun c => !(c == '/')) = true by decide) r hr
    · exact (show ∀ r ∈ CANDS_ADULTO,
        (String.data ⟨r⟩).all (fun c => !(c == '/')) = true by decide) r hr
  · intro nombre h1 h2 h3 h4
    unfold detectarTalla
    by_cases h0 : (nombre == "") = true
    · rw [if_pos h0]
    · rw [if_neg h0]
      dsimp only
      rw [h1, h2, h3, h4]

theorem c8_talla_vocabulario_witness :
    ("G" : String) ∈ ORDEN_TALLAS ++ ["SM", "LXL"] ∧
    detectarTalla "Toallitas humedas x 80" = none :=
  ⟨c8_talla_vocabulario.1 "Pañales Pampers Talla G 40 un" "G" (by decide),
   c8_talla_vocabulario.2.2 "Toallitas humedas x 80" (by decide) (by decide)
     (by decide) (by decide)⟩

/-! ## Name normalisation for cross-store grouping
(`main.py`, `normalizar_nombre`) -/

/-- One `re.sub(r"\bWORD\b", "", ·)` pass: remove each non-overlapping,
leftmost occurrence of a candidate (alternatives in greediness order) that
is delimited by word boundaries.  `prev` is the character of the original
text immediately to the left of the current position (for the left `\b`);
the fuel (initially the length) makes the recursion structural. -/
def subPalabraAux (cands : List (List Char)) :
    Option Char → Nat → List Char → List Char
  | _, 0, s => s
  | _, _ + 1, [] => []
  | prev, fuel + 1, c :: resto =>
      let izqOk := match prev with
        | none => true
        | some p => !esCaracterPalabra p
      match (if izqOk then
              cands.findSome? (fun cand =>
                if esPrefijo cand (c :: resto) &&
                    limiteTrasPalabra cand (c :: resto) then some cand
                else none)
             else none) with
      | some cand =>
          subPalabraAux cands (some (cand.getLastD ' ')) fuel
            ((c :: resto).drop cand.length)
      | none => c :: subPalabraAux cands (some c) fuel resto

def subPalabra (cands : List (List Char)) (s : List Char) : List Char :=
  subPalabraAux cands none s.length s

/-- Candidates of `\bpa[ñn]al(es)?\b` in greediness order. -/
def CANDS_PANAL : List (List Char) :=
  ["pañales".data, "panales".data, "pañal".data, "panal".data]

/-- `re.sub(r"\s+", " ", ·)`. -/
def colapsaEspaciosGo : Bool → List Char → List Char
  | _, [] => []
  | enRacha, c :: resto =>
      if esEspacioPy c then
        if enRacha then colapsaEspaciosGo true resto
        else ' ' :: colapsaEspaciosGo true resto
      else c :: colapsaEspaciosGo false resto

def colapsaEspacios (s : List Char) : List Char := colapsaEspaciosGo false s

/-- `normalizar_nombre` (main.py 452–477): lowercase, strip the filler-word
patterns, drop the characters outside `\w\s`, collapse whitespace, strip. -/
def normalizarNombre (nombre : String) : String :=
  if nombre == "" then ""
  else
    let t0 := (pyLower nombre).data
    let t1 := subPalabra CANDS_PANAL t0
    let t2 := subPalabra ["bebe".data, "bebé".data] t1
    let t3 := subPalabra ["adulto".data] t2
    let t4 := subPalabra ["unidades".data] t3
    let t5 := subPalabra ["unid".data] t4
    let t6 := subPalabra ["und".data] t5
    let t7 := subPalabra ["talla".data] t6
    let t8 := subPalabra ["un".data] t7
    let t9 := t8.filter (fun c => esCaracterPalabra c || esEspacioPy c)
    ⟨pyStrip (colapsaEspacios t9)⟩

example : normalizarNombre "Pañales Pampers Talla G 40 un" = "pampers g 40" := by
  decide
example : normalizarNombre "Pañal Bebé Huggies x50 unid." = "huggies x50" := by
  decide
example : normalizarNombre "" = "" := by decide

/-! ## Lowest-price flag of the consolidated export
(`main.py`, `marcar_precios_mas_bajos`) -/

/-- A consolidated-export row: the record plus the derived normalised name
and lowest-price flag. -/
structure RegistroMarcado where
  base : Registro
  nombreNormalizado : String
  esPrecioMasBajo : String
deriving DecidableEq

/-- One step of building `precio_minimo_por_nombre`: records with null
price are skipped, a fresh key is initialised, a smaller price replaces the
stored minimum.  The dict is modelled as a function. -/
def pasoMinimo (f : String → Option Int) (p : Registro) : String → Option Int :=
  match p.precio with
  | none => f
  | some pr => fun k =>
      if k = normalizarNombre p.nombre then
        match f k with
        | none => some pr
        | some m => if pr < m then some pr else some m
      else f k

def precioMinimoPorNombre (productos : List Registro) : String → Option Int :=
  productos.foldl pasoMinimo (fun _ => none)

/-- `marcar_precios_mas_bajos` (main.py 480–510): attach the normalised
name, then flag `"Si"` exactly on the rows whose non-null price is at most
the group minimum. -/
def marcarPreciosMasBajos (productos : List Registro) : List RegistroMarcado :=
  let minimos := precioMinimoPorNombre productos
  productos.map fun p =>
    let nn := normalizarNombre p.nombre
    let flag := match p.precio, minimos nn with
      | some pr, some m => if pr ≤ m then "Si" else ""
      | _, _ => ""
    ⟨p, nn, flag⟩

theorem pasoMinimo_le (f : String → Option Int) (p : Registro) (k : String)
    (m0 : Int) (h : f k = some m0) :
    ∃ m1, pasoMinimo f p k = some m1 ∧ m1 ≤ m0 := by
  unfold pasoMinimo
  cases hp : p.precio with
  | none => exact ⟨m0, h, le_refl m0⟩
  | some pr =>
      dsimp only
      by_cases hk : k = normalizarNombre p.nombre
      · rw [if_pos hk, h]
        dsimp only
        by_cases hlt : pr < m0
        · rw [if_pos hlt]
          exact ⟨pr, rfl, le_of_lt hlt⟩
        · rw [if_neg hlt]
          exact ⟨m0, rfl, le_refl m0⟩
      · rw [if_neg hk]
        exact ⟨m0, h, le_refl m0⟩

theorem foldMinimo_le (l : List Registro) :
    ∀ (f0 : String → Option Int) (k : String) (m0 : Int), f0 k = some m0 →
      ∃ m, (l.foldl pasoMinimo f0) k = some m ∧ m ≤ m0 := by
  induction l with
  | nil => intro f0 k m0 h; exact ⟨m0, h, le_refl m0⟩
  | cons p l ih =>
      intro f0 k m0 h
      obtain ⟨m1, h1, hle1⟩ := pasoMinimo_le f0 p k m0 h
      obtain ⟨m, hm, hle⟩ := ih (pasoMinimo f0 p) k m1 h1
      exact ⟨m, hm, le_trans hle hle1⟩

theorem foldMinimo_mem_le (l : List Registro) :
    ∀ (f0 : String → Option Int) (q : Registro), q ∈ l →
      ∀ w, q.precio = some w →
      ∃ m, (l.foldl pasoMinimo f0) (normalizarNombre q.nombre) = some m ∧
        m ≤ w := by
  induction l with
  | nil => intro f0 q hq; exact absurd hq (List.not_mem_nil q)
  | cons p l ih =>
      intro f0 q hq w hw
      rcases List.mem_cons.mp hq with rfl | hql
      · have h1 : ∃ m1, pasoMinimo f0 q (normalizarNombre q.nombre) = some m1 ∧
            m1 ≤ w := by
          unfold pasoMinimo
          rw [hw]
          dsimp only
          rw [if_pos rfl]
          cases hf : f0 (normalizarNombre q.nombre) with
          | none => exact ⟨w, rfl, le_refl w⟩
          | some m0 =>
              dsimp only
              by_cases hlt : w < m0
              · rw [if_pos hlt]
                exact ⟨w, rfl, le_refl w⟩
              · rw [if_neg hlt]
                exact ⟨m0, rfl, le_of_not_lt hlt⟩
        obtain ⟨m1, h1, hle1⟩ := h1
        obtain ⟨m, hm, hle⟩ := foldMinimo_le l (pasoMinimo f0 q) _ m1 h1
        exact ⟨m, hm, le_trans hle hle1⟩
      · exact ih (pasoMinimo f0 p) q hql w hw

theorem foldMinimo_origen (l : List Registro) :
    ∀ (f0 : String → Option Int) (k : String) (m : Int),
      (l.foldl pasoMinimo f0) k = some m →
      f0 k = some m ∨
        ∃ q ∈ l, normalizarNombre q.nombre = k ∧ q.precio = some m := by
  induction l with
  | nil => intro f0 k m h; exact Or.inl h
  | cons p l ih =>
      intro f0 k m h
      rcases ih (pasoMinimo f0 p) k m h with h1 | ⟨q, hql, hk, hq⟩
      · unfold pasoMinimo at h1
        cases hp : p.precio with
        | none =>
            rw [hp] at h1
            exact Or.inl h1
        | some pr =>
            rw [hp] at h1
            dsimp only at h1
            by_cases hk : k = normalizarNombre p.nombre
            · rw [if_pos hk] at h1
              cases hf : f0 k with
              | none =>
                  rw [hf] at h1
                  obtain rfl := Option.some.inj h1
                  exact Or.inr ⟨p, List.mem_cons_self p l, hk.symm, hp⟩
              | some m0 =>
                  rw [hf] at h1
                  dsimp only at h1
                  by_cases hlt : pr < m0
                  · rw [if_pos hlt] at h1
                    obtain rfl := Option.some.inj h1
                    exact Or.inr ⟨p, List.mem_cons_self p l, hk.symm, hp⟩
                  · rw [if_neg hlt] at h1
                    obtain rfl := Option.some.inj h1
                    exact Or.inl rfl
            · rw [if_neg hk] at h1
              exact Or.inl h1
      · exact Or.inr ⟨q, List.mem_cons_of_mem p hql, hk, hq⟩

/-- C9: in the consolidated export a row is flagged `"Si"` exactly when its
price is non-null and is at most (i.e. equals) the minimum non-null price
among all records sharing its normalised name; in particular every record
tying the minimum is flagged, and a record with null price is never
flagged. -/
theorem c9_flag_precio_minimo (productos : List Registro) (i : Nat)
    (r : RegistroMarcado)
    (h : (marcarPreciosMasBajos productos)[i]? = some r) :
    r.esPrecioMasBajo = "Si" ↔
      ∃ v, r.base.precio = some v ∧
        ∀ q ∈ productos, normalizarNombre q.nombre = r.nombreNormalizado →
          ∀ w, q.precio = some w → v ≤ w := by
  unfold marcarPreciosMasBajos at h
  rw [List.getElem?_map] at h
  cases hp : productos[i]? with
  | none =>
      rw [hp] at h
      exact absurd h (by simp)
  | some p =>
      rw [hp] at h
      simp only [Option.map_some] at h
      obtain rfl := (Option.some.inj h).symm
      have hpmem : p ∈ productos := List.mem_iff_getElem?.mpr ⟨i, hp⟩
      dsimp only
      cases hpr : p.precio with
      | none =>
          constructor
          · intro hflag
            have hne : ("" : String) ≠ "Si" := by decide
            exact absurd hflag hne
          · rintro ⟨v, hv, -⟩
            exact absurd hv (by simp)
      | some pr =>
          cases hmin : precioMinimoPorNombre productos (normalizarNombre p.nombre) with
          | none =>
              obtain ⟨m, hm, -⟩ :=
                foldMinimo_mem_le productos (fun _ => none) p hpmem pr hpr
              have hm2 : precioMinimoPorNombre productos
                  (normalizarNombre p.nombre) = some m := hm
              rw [hmin] at hm2
              exact absurd hm2 (by simp)
          | some m =>
              constructor
              · intro hflag
                have hflag2 : (if pr ≤ m then "Si" else "") = "Si" := hflag
                have hle : pr ≤ m := by
                  by_cases hc : pr ≤ m
                  · exact hc
                  · rw [if_neg hc] at hflag2
                    exact absurd hflag2 (by decide)
                refine ⟨pr, rfl, ?_⟩
                intro q hq hkq w hw
                obtain ⟨m2, hm2, hm2le⟩ :=
                  foldMinimo_mem_le productos (fun _ => none) q hq w hw
                rw [hkq] at hm2
                have hm2b : precioMinimoPorNombre productos
                    (normalizarNombre p.nombre) = some m2 := hm2
                rw [hmin] at hm2b
                have hmm : m = m2 := Option.some.inj hm2b
                exact le_trans hle (hmm ▸ hm2le)
              · rintro ⟨v, hv, hall⟩
                obtain rfl := Option.some.inj hv
                show (if pr ≤ m then "Si" else "") = "Si"
                have hminf : productos.foldl pasoMinimo (fun _ => none)
                    (normalizarNombre p.nombre) = some m := hmin
                rcases foldMinimo_origen productos (fun _ => none) _ m hminf with
                  h0 | ⟨q, hql, hkq, hqp⟩
                · exact absurd h0 (by simp)
                · have hvm : pr ≤ m := hall q hql hkq m hqp
                  rw [if_pos hvm]

def registroTestigoA : Registro :=
  ⟨"pampers g 40", some 100, "Pampers", none, none, "", none, "uA", "T1", "f"⟩

def registroTestigoB : Registro :=
  ⟨"pampers g 40", some 200, "Pampers", none, none, "", none, "uB", "T2", "f"⟩

theorem c9_flag_precio_minimo_witness :
    ("Si" : String) = "Si" ↔
      ∃ v, (some 100 : Option Int) = some v ∧
        ∀ q ∈ [registroTestigoA, registroTestigoB],
          normalizarNombre q.nombre = "pampers g 40" →
          ∀ w, q.precio = some w → v ≤ w :=
  c9_flag_precio_minimo [registroTestigoA, registroTestigoB] 0
    ⟨registroTestigoA, "pampers g 40", "Si"⟩ (by decide)

/-! ## The query side (`app.py`, `buscar_productos`)

A row of the `precios × productos × tiendas` join, the SQL `WHERE`
filters, the `GROUP BY p.id, t.id` deduplication, the `ORDER BY` whitelist
of `ORDEN_PERMITIDO`, and the Python post-processing loop. -/

structure Fila where
  productoId : Nat
  tiendaId : Nat
  nombre : String
  marca : String
  tamanoUnidades : Option Int
  url : String
  imagenUrl : Option String
  precio : Option Int
  precioPorUnidad : Option Int
  precioLista : Option Int
  tienda : String
  fecha : String
deriving DecidableEq

/-- The inner join of the three tables, in `precios` rowid order. -/
def filasJoin (db : DB) : List Fila :=
  db.precios.filterMap fun pr =>
    match db.productos.find? (fun p => p.id == pr.productoId),
          db.tiendas.find? (fun t => t.id == pr.tiendaId) with
    | some p, some t =>
        some ⟨p.id, t.id, p.nombre, p.marca, p.tamanoUnidades, p.url,
              p.imagenUrl, pr.precio, pr.precioPorUnidad, pr.precioLista,
              t.nombre, pr.fechaScraping⟩
    | _, _ => none

/-- `SELECT MAX(fecha_scraping) FROM precios`: `none` iff the table is
empty (the column is NOT NULL). -/
def ultimaFecha (db : DB) : Option String :=
  db.precios.foldl
    (fun acc pr =>
      match acc with
      | none => some pr.fechaScraping
      | some m => some (if m < pr.fechaScraping then pr.fechaScraping else m))
    none

/-- `INCLUIR_PATRONES` (app.py 30–38), without the `%` wrappers: SQLite
`LIKE '%x%'` is substring containment. -/
def INCLUIR_PATRONES : List String :=
  ["pañal", "panal", "toalla", "toallita",
   "huggies", "pampers", "babysec",
   "leche", "fórmula", "formula", "nan ", "similac",
   "enfamil", "s-26", "purita", "nido",
   "splasher", "goodnites", "emubaby",
   "waterwipes", "aqua baby", "merries", "terra ",
   "nenitos", "neniwipes", "althera", "cell skin"]

/-- `EXCLUIR_ADULTO` (app.py 41–45), without the `%` wrappers. -/
def EXCLUIR_ADULTO : List String :=
  ["adulto", "incontinencia", "plenitud", "tena ",
   "cotidian", "ladysoft", "emumed", "emuprotect",
   "proactive", " win ", "win plus", "win premium"]

/-- SQLite `LIKE '%pat%'`: substring containment, case-insensitive on ASCII
only (`Char.toLower` is the ASCII fold, like SQLite's default collation). -/
def likeContiene (pat s : String) : Bool :=
  esSubcadena (pat.data.map Char.toLower) (s.data.map Char.toLower)

/-- `query_excluir_no_panales` (app.py 224–228) applied to a product name:
at least one allow pattern and none of the adult-exclusion patterns, on
`LOWER(p.nombre)`. -/
def filtroNoPanales (nombre : String) : Bool :=
  INCLUIR_PATRONES.any (fun pat => likeContiene pat (sqlLower nombre)) &&
  EXCLUIR_ADULTO.all (fun pat => !likeContiene pat (sqlLower nombre))

/-- Python `str.split()` on whitespace (for the free-text search words). -/
def splitEspaciosAux : List Char → List Char → List (List Char)
  | actual, [] => if actual.isEmpty then [] else [actual.reverse]
  | actual, c :: resto =>
      if esEspacioPy c then
        if actual.isEmpty then splitEspaciosAux [] resto
        else actual.reverse :: splitEspaciosAux [] resto
      else splitEspaciosAux (c :: actual) resto

def splitEspacios (s : List Char) : List (List Char) := splitEspaciosAux [] s

/-- The SQL `WHERE` clause of `buscar_productos` (app.py 435–468): latest
run date, non-null price, the allow/deny name patterns, and the optional
brand / store-set / price-ceiling / free-text filters (an `Option` argument
is `none` when Python found the parameter falsy and did not add the
clause). -/
def filtroSQL (ultima : String) (marca : Option String)
    (tiendasSel : Option (List String)) (precioMax : Option Int)
    (busqueda : Option String) (f : Fila) : Bool :=
  f.fecha == ultima &&
  f.precio != none &&
  filtroNoPanales f.nombre &&
  (match marca with
   | none => true
   | some m => sqlLower f.marca == sqlLower m) &&
  (match tiendasSel with
   | none => true
   | some ts => ts.contains f.tienda) &&
  (match precioMax with
   | none => true
   | some mx => decide (f.precio.getD 0 ≤ mx)) &&
  (match busqueda with
   | none => true
   | some b => (splitEspacios (pyStrip b.data)).all
      (fun w => likeContiene ⟨w⟩ f.nombre))

/-- `GROUP BY p.id, t.id`: one row per (product, store) pair, first
occurrence kept. -/
def dedupGrupo (vistos : List (Nat × Nat)) : List Fila → List Fila
  | [] => []
  | f :: resto =>
      if vistos.contains (f.productoId, f.tiendaId) then dedupGrupo vistos resto
      else f :: dedupGrupo ((f.productoId, f.tiendaId) :: vistos) resto

/-- SQLite `ASC` comparison of a nullable integer column (`NULL` first). -/
def cmpOpcion (a b : Option Int) : Ordering :=
  match a, b with
  | none, none => .eq
  | none, some _ => .lt
  | some _, none => .gt
  | some x, some y => compare x y

/-- The `CASE WHEN pr.precio_por_unidad IS NULL THEN 1 ELSE 0 END` key. -/
def claveNulos (x : Option Int) : Nat :=
  match x with
  | none => 1
  | some _ => 0

/-- `ORDEN_PERMITIDO["precio_por_unidad"]` (app.py 92): nulls last, then
unit price ascending, then total price ascending. -/
def cmpFilaPPU (a b : Fila) : Ordering :=
  (compare (claveNulos a.precioPorUnidad) (claveNulos b.precioPorUnidad)).then
    ((cmpOpcion a.precioPorUnidad b.precioPorUnidad).then
      (cmpOpcion a.precio b.precio))

/-- `ORDEN_PERMITIDO["precio"]`. -/
def cmpFilaPrecio (a b : Fila) : Ordering := cmpOpcion a.precio b.precio

/-- `ORDEN_PERMITIDO["marca"]`. -/
def cmpFilaMarca (a b : Fila) : Ordering :=
  (compare a.marca b.marca).then (cmpOpcion a.precio b.precio)

/-- `ORDEN_PERMITIDO["tienda"]`. -/
def cmpFilaTienda (a b : Fila) : Ordering :=
  (compare a.tienda b.tienda).then (cmpOpcion a.precio b.precio)

/-- `ORDEN_PERMITIDO.get(orden, ORDEN_PERMITIDO["precio_por_unidad"])`
(app.py 91–96 and 472). -/
def ordenComparador (orden : String) : Fila → Fila → Ordering :=
  if orden == "precio" then cmpFilaPrecio
  else if orden == "marca" then cmpFilaMarca
  else if orden == "tienda" then cmpFilaTienda
  else cmpFilaPPU

def leFila (orden : String) (a b : Fila) : Bool :=
  ordenComparador orden a b != Ordering.gt

/-- Python `str.title()` over the program's alphabet. -/
def pyTitleGo : Bool → List Char → List Char
  | _, [] => []
  | prevLetra, c :: resto =>
      let esLetra := c.isAlpha || esAcentuada c
      if esLetra then
        (if prevLetra then pyLowerChar c else pyUpperChar c) ::
          pyTitleGo true resto
      else c :: pyTitleGo false resto

def pyTitle (s : List Char) : List Char := pyTitleGo false s

/-- `MARCA_ALIASES` (app.py 168–170). -/
def MARCA_ALIASES : List (String × String) := [("Nan Optipro", "Nan")]

/-- `normalizar_marca` (app.py 173–178). -/
def normalizarMarca (marca : String) : String :=
  if marca == "" then ""
  else
    let norm : String := ⟨pyTitle (pyStrip marca.data)⟩
    ((MARCA_ALIASES.lookup norm).getD norm)

example : normalizarMarca "PAMPERS" = "Pampers" := by decide
example : normalizarMarca "NAN OPTIPRO" = "Nan" := by decide

/-- The discount computation of `buscar_productos` (app.py 486–494):
returns `(descuento_pct, precio_lista)` — the percentage
`round((pl - p) / pl * 100)` and the retained list price when both prices
are truthy and `precio_lista > precio`, otherwise `(none, none)` (list
price suppressed). -/
def descuentoYLista (precioLista precio : Option Int) : Option Int × Option Int :=
  if truthyInt precioLista && truthyInt precio &&
      decide (precio.getD 0 < precioLista.getD 0) then
    (some (roundDiv ((precioLista.getD 0 - precio.getD 0) * 100)
        (precioLista.getD 0)),
     precioLista)
  else (none, none)

example : descuentoYLista (some 12000) (some 10000) = (some 17, some 12000) := by
  decide
example : descuentoYLista (some 9000) (some 10000) = (none, none) := by decide

/-- One enriched result row of `buscar_productos` (app.py 479–494). -/
structure Resultado where
  nombre : String
  marca : String
  tamanoUnidades : Option Int
  url : String
  imagenUrl : Option String
  precio : Option Int
  precioPorUnidad : Option Int
  precioLista : Option Int
  tienda : String
  talla : Option String
  marcaNormalizada : String
  categoria : String
  descuentoPct : Option Int
deriving DecidableEq

/-- The per-row enrichment of the Python loop (talla, normalised brand,
category, discount and list-price suppression). -/
def procesarFila (f : Fila) : Resultado :=
  let dl := descuentoYLista f.precioLista f.precio
  ⟨f.nombre, f.marca, f.tamanoUnidades, f.url, f.imagenUrl, f.precio,
   f.precioPorUnidad, dl.2, f.tienda, detectarTalla f.nombre,
   normalizarMarca f.marca, detectarCategoria f.nombre, dl.1⟩

/-- The Python-side `continue` filters of the loop (app.py 496–510): size,
age-band sizes, category, exact product name, and the unit-price
requirement for non-formula categories. -/
def filtroPython (talla : Option String) (tallasEdad : Option (List String))
    (categoria : Option String) (productoParam : Option String)
    (r : Resultado) : Bool :=
  (match talla with
   | none => true
   | some t => r.talla == some t) &&
  (match tallasEdad with
   | none => true
   | some ts =>
      match r.talla with
      | some t => ts.contains t
      | none => false) &&
  (match categoria with
   | none => true
   | some c => r.categoria == c) &&
  (match productoParam with
   | none => true
   | some pp => r.nombre == pp) &&
  (r.categoria == "Fórmulas Infantiles" || truthyInt r.precioPorUnidad)

/-- `buscar_productos` (app.py 418–515): empty result when no run date
exists; otherwise filter the join on the latest date, group, order by the
whitelisted sort key, enrich and post-filter. -/
def buscarProductos (db : DB) (marca : Option String) (talla : Option String)
    (tallasEdad : Option (List String)) (tiendasSel : Option (List String))
    (precioMax : Option Int) (busqueda : Option String)
    (categoria : Option String) (productoParam : Option String)
    (orden : String) : List Resultado × Option String :=
  match ultimaFecha db with
  | none => ([], none)
  | some ultima =>
      let filas := (filasJoin db).filter
        (filtroSQL ultima marca tiendasSel precioMax busqueda)
      let agrupadas := dedupGrupo [] filas
      let ordenadas := agrupadas.mergeSort (fun a b => leFila orden a b)
      let resultados := (ordenadas.map procesarFila).filter
        (filtroPython talla tallasEdad categoria productoParam)
      (resultados, some ultima)

/-! ## Filter options (`app.py`, `obtener_opciones_filtros`) -/

/-- `orden_talla` (app.py 307–311): index in `ORDEN_TALLAS`, 999 when
unknown. -/
def ordenTallaIdx (t : String) : Nat :=
  match ORDEN_TALLAS.findIdx? (fun x => x == t) with
  | some i => i
  | none => 999

/-- Python `sorted` on strings. -/
def ordenaCadenas (l : List String) : List String :=
  l.mergeSort (fun a b => decide (a ≤ b))

/-- Python `sorted(..., key=orden_talla)` (stable, like `sorted`). -/
def ordenaPorTalla (l : List String) : List String :=
  l.mergeSort (fun a b => decide (ordenTallaIdx a ≤ ordenTallaIdx b))

/-- `set.add`: a Python set as a duplicate-free list in insertion order
(the code always sorts before using a set, so only the membership matters). -/
def insertaUnico (x : String) (l : List String) : List String :=
  if l.contains x then l else l ++ [x]

/-- Insertion-ordered dict update (Python dicts preserve insertion order):
apply `f` to the entry at `k`, inserting `inicial` if `k` is absent. -/
def asocModifica {β : Type} :
    List (String × β) → String → β → (β → β) → List (String × β)
  | [], k, inicial, _ => [(k, inicial)]
  | (k2, v) :: resto, k, inicial, f =>
      if k2 == k then (k2, f v) :: resto
      else (k2, v) :: asocModifica resto k inicial f

/-- One category's entry in the options mapping. -/
structure OpcionesCategoria where
  marcas : List String
  tallasPorMarca : List (String × List String)
  productosPorMarca : Option (List (String × List String))
deriving DecidableEq

/-- The structure returned when no run date exists (app.py 291–293). -/
def opcionesVacias : List (String × OpcionesCategoria) :=
  [("", ⟨[], [("", [])], none⟩)]

/-- A row of the `precios × productos` join used by the options query. -/
structure FilaOpciones where
  nombre : String
  marca : String
  precioPorUnidad : Option Int
  precio : Option Int
  fecha : String
deriving DecidableEq

def filasOpcionesJoin (db : DB) : List FilaOpciones :=
  db.precios.filterMap fun pr =>
    match db.productos.find? (fun p => p.id == pr.productoId) with
    | some p =>
        some ⟨p.nombre, p.marca, pr.precioPorUnidad, pr.precio,
              pr.fechaScraping⟩
    | none => none

/-- The accumulation loop of `obtener_opciones_filtros` (app.py 313–338):
`datos : categoria → marca → set of tallas` and
`productos_formulas : marca → set of names`. -/
def acumulaFila
    (acc : List (String × List (String × List String)) ×
           List (String × List String))
    (row : FilaOpciones) :
    List (String × List (String × List String)) ×
    List (String × List String) :=
  let marca := normalizarMarca row.marca
  if marca == "" then acc
  else
    let categoria := detectarCategoria row.nombre
    if categoria != "Fórmulas Infantiles" && !truthyInt row.precioPorUnidad then
      acc
    else
      let talla := detectarTalla row.nombre
      let inicialTallas : List String :=
        match talla with
        | some t => [t]
        | none => []
      let datos1 := asocModifica acc.1 categoria [(marca, inicialTallas)]
        (fun marcasDict => asocModifica marcasDict marca inicialTallas
          (fun ts =>
            match talla with
            | some t => insertaUnico t ts
            | none => ts))
      let pf1 :=
        if categoria == "Fórmulas Infantiles" then
          asocModifica acc.2 marca [row.nombre] (insertaUnico row.nombre)
        else acc.2
      (datos1, pf1)

/-- The per-category options (app.py 342–372). -/
def construyeOpcionesCategoria (cat : String)
    (marcasDict : List (String × List String))
    (productosFormulas : List (String × List String)) : OpcionesCategoria :=
  let marcasLista := ordenaCadenas (marcasDict.map (fun mv => mv.1))
  let todasTallas := marcasDict.foldl
    (fun acc mv => mv.2.foldl (fun a t => insertaUnico t a) acc) []
  let tallasPorMarca :=
    (marcasDict.map (fun mv => (mv.1, ordenaPorTalla mv.2))) ++
      [("", ordenaPorTalla todasTallas)]
  let tallasPorMarca2 :=
    if cat == "Toallitas Humedas" || cat == "Fórmulas Infantiles" then
      ([] : List (String × List String))
    else tallasPorMarca
  let productosPorMarca :=
    if cat == "Fórmulas Infantiles" then
      let todos := productosFormulas.foldl
        (fun acc mv => mv.2.foldl (fun a n => insertaUnico n a) acc) []
      some ((productosFormulas.map (fun mv => (mv.1, ordenaCadenas mv.2))) ++
        [("", ordenaCadenas todos)])
    else none
  ⟨marcasLista, tallasPorMarca2, productosPorMarca⟩

/-- The global (no-category) entry (app.py 374–393). -/
def construyeOpcionGlobal
    (datos : List (String × List (String × List String))) : OpcionesCategoria :=
  let todasMarcas := datos.foldl
    (fun acc cmv => cmv.2.foldl (fun a mv => insertaUnico mv.1 a) acc) []
  let todasTallasGlobal := datos.foldl
    (fun acc cmv => cmv.2.foldl
      (fun a mv => mv.2.foldl (fun a2 t => insertaUnico t a2) a) acc) []
  let tallasPorMarcaGlobal := datos.foldl
    (fun acc cmv => cmv.2.foldl
      (fun a mv => asocModifica a mv.1 mv.2
        (fun ts => mv.2.foldl (fun l t => insertaUnico t l) ts)) acc) []
  ⟨ordenaCadenas todasMarcas,
   ("", ordenaPorTalla todasTallasGlobal) ::
     tallasPorMarcaGlobal.map (fun mv => (mv.1, ordenaPorTalla mv.2)),
   none⟩

/-- `obtener_opciones_filtros` (app.py 279–395): the empty structure when
no run date exists, else the cascading options built from the latest-date
rows that pass the allow/deny patterns and have a non-null price. -/
def obtenerOpcionesFiltros (db : DB) : List (String × OpcionesCategoria) :=
  match ultimaFecha db with
  | none => opcionesVacias
  | some ultima =>
      let rows := (filasOpcionesJoin db).filter
        (fun f => f.fecha == ultima && f.precio != none &&
          filtroNoPanales f.nombre)
      let acc := rows.foldl acumulaFila ([], [])
      let opciones := acc.1.map
        (fun cmv => (cmv.1, construyeOpcionesCategoria cmv.1 cmv.2 acc.2))
      opciones ++ [("", construyeOpcionGlobal acc.1)]

/-- C6: if the historical store contains no price observations (so no run
date exists), both read-side queries — product search and filter-option
listing — return their empty results instead of erroring: `([], none)` and
the empty options structure. -/
theorem c6_sin_datos_resultados_vacios (db : DB) (h : db.precios = []) :
    (∀ marca talla tallasEdad tiendasSel precioMax busqueda categoria
        productoParam orden,
      buscarProductos db marca talla tallasEdad tiendasSel precioMax busqueda
        categoria productoParam orden = ([], none)) ∧
    obtenerOpcionesFiltros db = opcionesVacias := by
  have hu : ultimaFecha db = none := by
    unfold ultimaFecha
    rw [h]
    rfl
  constructor
  · intro marca talla tallasEdad tiendasSel precioMax busqueda categoria
      productoParam orden
    unfold buscarProductos
    rw [hu]
  · unfold obtenerOpcionesFiltros
    rw [hu]

theorem c6_sin_datos_resultados_vacios_witness :
    buscarProductos dbVacia none none none none none none none none
        "precio_por_unidad" = ([], none) ∧
    obtenerOpcionesFiltros dbVacia = opcionesVacias :=
  ⟨(c6_sin_datos_resultados_vacios dbVacia rfl).1 none none none none none none
      none none "precio_por_unidad",
   (c6_sin_datos_resultados_vacios dbVacia rfl).2⟩

/-- C5 counterexample: a queried record with non-null price `0` and
non-null list price `100 > 0`; the claim says the discount
`round((100-0)/100*100) = 100` is present, but Python's
`if precio_lista and precio and precio_lista > precio` treats the non-null
price `0` as falsy, so no discount is computed and the list price is
suppressed. -/
theorem c5_counterexample_precio_cero :
    some (0 : ℤ) ≠ (none : Option ℤ) ∧
    some (100 : ℤ) ≠ (none : Option ℤ) ∧
    (100 : ℤ) > 0 ∧
    descuentoYLista (some 100) (some 0) = (none, none) := by
  decide

/-- C5 (amended): for every queried record, the discount percentage equals
`round((listPrice - price) / listPrice * 100)` exactly when both prices are
non-null AND non-zero and `listPrice > price`; otherwise the discount is
absent and the record's list price is suppressed to `none`. -/
theorem c5_descuento_redondeo (f : Fila) :
    (∀ pl p, f.precioLista = some pl → f.precio = some p → pl ≠ 0 → p ≠ 0 →
      p < pl →
      (procesarFila f).descuentoPct = some (roundDiv ((pl - p) * 100) pl) ∧
      (procesarFila f).precioLista = some pl) ∧
    (¬ (truthyInt f.precioLista = true ∧ truthyInt f.precio = true ∧
        f.precio.getD 0 < f.precioLista.getD 0) →
      (procesarFila f).descuentoPct = none ∧
      (procesarFila f).precioLista = none) := by
  constructor
  · intro pl p hpl hp hpl0 hp0 hgt
    have hc : (truthyInt f.precioLista && truthyInt f.precio &&
        decide (f.precio.getD 0 < f.precioLista.getD 0)) = true := by
      rw [hpl, hp]
      simp [truthyInt, hpl0, hp0, hgt]
    unfold procesarFila descuentoYLista
    dsimp only
    rw [if_pos hc, hpl, hp]
    exact ⟨rfl, rfl⟩
  · intro hc
    have hcb : (truthyInt f.precioLista && truthyInt f.precio &&
        decide (f.precio.getD 0 < f.precioLista.getD 0)) = false := by
      by_contra hne
      apply hc
      have htrue : (truthyInt f.precioLista && truthyInt f.precio &&
          decide (f.precio.getD 0 < f.precioLista.getD 0)) = true := by
        revert hne
        cases truthyInt f.precioLista && truthyInt f.precio &&
          decide (f.precio.getD 0 < f.precioLista.getD 0) <;> simp
      simpa [Bool.and_eq_true, decide_eq_true_eq, and_assoc] using htrue
    unfold procesarFila descuentoYLista
    dsimp only
    simp only [hcb, Bool.false_eq_true, if_false]
    exact ⟨trivial, trivial⟩

def filaConDescuento : Fila :=
  ⟨1, 1, "Pañales Pampers Talla G x 40 un", "Pampers", some 40, "u1", none,
   some 10000, some 250, some 12000, "Liquimax", "2025-01-01"⟩

def filaSinDescuento : Fila :=
  ⟨1, 1, "Pañales Pampers Talla G x 40 un", "Pampers", some 40, "u1", none,
   some 10000, some 250, some 9000, "Liquimax", "2025-01-01"⟩

theorem c5_descuento_redondeo_witness :
    ((procesarFila filaConDescuento).descuentoPct = some 17 ∧
      (procesarFila filaConDescuento).precioLista = some 12000) ∧
    ((procesarFila filaSinDescuento).descuentoPct = none ∧
      (procesarFila filaSinDescuento).precioLista = none) :=
  ⟨(c5_descuento_redondeo filaConDescuento).1 12000 10000 rfl rfl (by decide)
      (by decide) (by decide),
   (c5_descuento_redondeo filaSinDescuento).2 (by decide)⟩

/-! ## The sort order of `ORDEN_PERMITIDO["precio_por_unidad"]` (C4) -/

theorem cmpOpcion_swap (a b : Option Int) :
    (cmpOpcion a b).swap = cmpOpcion b a := by
  cases a with
  | none => cases b <;> rfl
  | some x =>
      cases b with
      | none => rfl
      | some y =>
          show (compare x y).swap = compare y x
          exact Batteries.OrientedCmp.symm x y

theorem cmpOpcion_le_trans {a b c : Option Int}
    (h1 : cmpOpcion a b ≠ .gt) (h2 : cmpOpcion b c ≠ .gt) :
    cmpOpcion a c ≠ .gt := by
  cases a with
  | none => cases c <;> simp [cmpOpcion]
  | some x =>
      cases b with
      | none => exact absurd rfl h1
      | some y =>
          cases c with
          | none => exact absurd rfl h2
          | some z =>
              have h1b : compare x y ≠ .gt := h1
              have h2b : compare y z ≠ .gt := h2
              show compare x z ≠ .gt
              exact Batteries.TransCmp.le_trans h1b h2b

theorem bne_gt_iff (x : Ordering) :
    (x != Ordering.gt) = true ↔ x ≠ Ordering.gt := by
  cases x <;> decide

theorem cmpFilaPPU_swap (a b : Fila) :
    (cmpFilaPPU a b).swap = cmpFilaPPU b a := by
  unfold cmpFilaPPU
  rw [Ordering.swap_then, Ordering.swap_then, cmpOpcion_swap, cmpOpcion_swap,
    Batteries.OrientedCmp.symm (claveNulos a.precioPorUnidad)
      (claveNulos b.precioPorUnidad)]

theorem cmpFilaPPU_le_trans {a b c : Fila}
    (h1 : cmpFilaPPU a b ≠ .gt) (h2 : cmpFilaPPU b c ≠ .gt) :
    cmpFilaPPU a c ≠ .gt := by
  haveI i1 : Batteries.TransCmp
      (fun x y : Fila =>
        compare (claveNulos x.precioPorUnidad) (claveNulos y.precioPorUnidad)) :=
    { symm := fun x y => Batteries.OrientedCmp.symm _ _
      le_trans := fun hxy hyz => Batteries.TransCmp.le_trans hxy hyz }
  haveI i2 : Batteries.TransCmp
      (fun x y : Fila => cmpOpcion x.precioPorUnidad y.precioPorUnidad) :=
    { symm := fun x y => cmpOpcion_swap _ _
      le_trans := fun hxy hyz => cmpOpcion_le_trans hxy hyz }
  haveI i3 : Batteries.TransCmp
      (fun x y : Fila => cmpOpcion x.precio y.precio) :=
    { symm := fun x y => cmpOpcion_swap _ _
      le_trans := fun hxy hyz => cmpOpcion_le_trans hxy hyz }
  have instAll : Batteries.TransCmp
      (compareLex
        (fun x y : Fila =>
          compare (claveNulos x.precioPorUnidad) (claveNulos y.precioPorUnidad))
        (compareLex
          (fun x y : Fila => cmpOpcion x.precioPorUnidad y.precioPorUnidad)
          (fun x y : Fila => cmpOpcion x.precio y.precio))) := inferInstance
  exact instAll.le_trans h1 h2

theorem leFila_ppu_eq (a b : Fila) :
    leFila "precio_por_unidad" a b = (cmpFilaPPU a b != Ordering.gt) := rfl

theorem leFila_ppu_trans : ∀ a b c : Fila,
    leFila "precio_por_unidad" a b = true →
    leFila "precio_por_unidad" b c = true →
    leFila "precio_por_unidad" a c = true := by
  intro a b c h1 h2
  rw [leFila_ppu_eq, bne_gt_iff] at h1 h2 ⊢
  exact cmpFilaPPU_le_trans h1 h2

theorem leFila_ppu_total : ∀ a b : Fila,
    (leFila "precio_por_unidad" a b || leFila "precio_por_unidad" b a)
      = true := by
  intro a b
  rw [leFila_ppu_eq, leFila_ppu_eq]
  rcases h : cmpFilaPPU a b with _ | _ | _
  · rfl
  · rfl
  · have hswap : cmpFilaPPU b a = .lt := by
      have hs := cmpFilaPPU_swap a b
      rw [h] at hs
      exact hs.symm
    rw [hswap]
    rfl

/-- The ordering property the claim states for unit-price-sorted results:
null unit prices come after non-null ones, non-null unit prices are
ascending, and the total price is the secondary key within equal (or both
null) unit prices. -/
def ordenPPUCorrecto (a b : Resultado) : Prop :=
  (a.precioPorUnidad = none → b.precioPorUnidad = none) ∧
  (∀ x y, a.precioPorUnidad = some x → b.precioPorUnidad = some y → x ≤ y) ∧
  (∀ x px py, a.precioPorUnidad = some x → b.precioPorUnidad = some x →
    a.precio = some px → b.precio = some py → px ≤ py) ∧
  (a.precioPorUnidad = none → b.precioPorUnidad = none →
    ∀ px py, a.precio = some px → b.precio = some py → px ≤ py)

theorem leFilaPPU_implica (a b : Fila) (h : cmpFilaPPU a b ≠ .gt) :
    ordenPPUCorrecto (procesarFila a) (procesarFila b) := by
  refine ⟨?_, ?_, ?_, ?_⟩
  · intro ha
    have ha2 : a.precioPorUnidad = none := ha
    cases hb : b.precioPorUnidad with
    | none => exact hb
    | some y =>
        exfalso
        apply h
        unfold cmpFilaPPU
        rw [ha2, hb]
        rfl
  · intro x y hx hy
    have hx2 : a.precioPorUnidad = some x := hx
    have hy2 : b.precioPorUnidad = some y := hy
    by_contra hgt
    apply h
    unfold cmpFilaPPU
    rw [hx2, hy2]
    have hcmp : compare x y = Ordering.gt :=
      compare_gt_iff_gt.mpr (lt_of_not_le hgt)
    show (compare (claveNulos (some x)) (claveNulos (some y))).then
      ((cmpOpcion (some x) (some y)).then (cmpOpcion a.precio b.precio))
        = .gt
    show Ordering.eq.then
      ((compare x y).then (cmpOpcion a.precio b.precio)) = .gt
    rw [hcmp]
    rfl
  · intro x px py hx hy hpx hpy
    have hx2 : a.precioPorUnidad = some x := hx
    have hy2 : b.precioPorUnidad = some x := hy
    have hpx2 : a.precio = some px := hpx
    have hpy2 : b.precio = some py := hpy
    have hq : cmpOpcion a.precio b.precio ≠ .gt := by
      intro hq
      apply h
      unfold cmpFilaPPU
      rw [hx2, hy2]
      show Ordering.eq.then
        ((compare x x).then (cmpOpcion a.precio b.precio)) = .gt
      rw [compare_eq_iff_eq.mpr (rfl : x = x), hq]
      rfl
    rw [hpx2, hpy2] at hq
    exact compare_le_iff_le.mp hq
  · intro ha hb px py hpx hpy
    have ha2 : a.precioPorUnidad = none := ha
    have hb2 : b.precioPorUnidad = none := hb
    have hpx2 : a.precio = some px := hpx
    have hpy2 : b.precio = some py := hpy
    have hq : cmpOpcion a.precio b.precio ≠ .gt := by
      intro hq
      apply h
      unfold cmpFilaPPU
      rw [ha2, hb2, hq]
      rfl
    rw [hpx2, hpy2] at hq
    exact compare_le_iff_le.mp hq

/-- C4: in query results sorted by unit price (`orden =
"precio_por_unidad"`), every record with null unit price is ordered after
every record with non-null unit price, records with non-null unit price
appear in ascending order of unit price, and the total price is the
secondary sort key within equal (including both-null) unit prices. -/
theorem c4_orden_resultados_por_ppu (db : DB) (marca talla : Option String)
    (tallasEdad tiendasSel : Option (List String)) (precioMax : Option Int)
    (busqueda categoria productoParam : Option String) :
    List.Pairwise ordenPPUCorrecto
      (buscarProductos db marca talla tallasEdad tiendasSel precioMax busqueda
        categoria productoParam "precio_por_unidad").1 := by
  unfold buscarProductos
  cases hu : ultimaFecha db with
  | none => simp
  | some ultima =>
      dsimp only
      apply List.Pairwise.sublist (List.filter_sublist _)
      apply List.Pairwise.map
      · intro a b hab
        apply leFilaPPU_implica
        have hab2 : (cmpFilaPPU a b != Ordering.gt) = true := hab
        exact (bne_gt_iff _).mp hab2
      · exact List.sorted_mergeSort leFila_ppu_trans leFila_ppu_total _

end Comparador
